import Mathlib

/-!
Verification of the congressional-accountability backend.

This file gives a shallow embedding, in Lean, of the backend routes of the
repository (Express route handlers over a PostgreSQL store) and of the FEC
mapping ETL job, and proves the behavioural properties stated about them.

Modelling conventions:
* a database is an explicit value listing the rows of every table;
* each SQL statement is embedded as a pure function over that value
  (`WHERE` is `List.filter`, `ORDER BY` is a stable `insertionSort`,
  `LIMIT n` is `List.take n`, a join is `flatMap` over the two tables);
* a query that the route wraps in `try/catch` may also throw: thrown
  sub-queries are modelled by an explicit fault assignment, and PostgreSQL's
  rejection of a negative `LIMIT`/`OFFSET` is modelled as an error result;
* JavaScript numbers reaching `parseInt(_, 10)` are modelled by an
  `Option Int` (`none` standing for `NaN`), and `x || d` defaulting by a
  match on the falsy values (`NaN`, `0`);
* the Python ETL helper is embedded with `Except`, an uncaught exception
  being an `error` value.
-/

namespace Congress

/-! ## JavaScript pagination parsing

`parseInt(s, 10)` skips leading whitespace, reads an optional sign and then
the longest prefix of decimal digits; it is `NaN` when no digit is read. -/

/-- Numeric value of a list of decimal digit characters, most significant first. -/
def digitsVal (cs : List Char) : Nat :=
  cs.foldl (fun acc c => acc * 10 + (c.toNat - '0'.toNat)) 0

/-- JavaScript `parseInt(s, 10)`: `none` models `NaN`. -/
def parseIntTen (s : String) : Option Int :=
  let cs := s.data.dropWhile (fun c => c.isWhitespace)
  let signAndRest : Bool × List Char :=
    match cs with
    | '-' :: r => (true, r)
    | '+' :: r => (false, r)
    | r => (false, r)
  let ds := signAndRest.2.takeWhile (fun c => c.isDigit)
  if ds.isEmpty then none
  else some (if signAndRest.1 then -(digitsVal ds : Int) else (digitsVal ds : Int))

/-- JavaScript `parseInt(q, 10) || d` where `q` is an optional query-string
value: an absent parameter, a non-numeric parameter (`NaN`) and the falsy
number `0` all fall back to `d`; every other parsed integer is kept. -/
def jsParseIntOr (q : Option String) (d : Int) : Int :=
  match q with
  | none => d
  | some s =>
    match parseIntTen s with
    | none => d
    | some n => if n = 0 then d else n

/-! ## Data model (rows of the relational store) -/

/-- A row of the `legislators` table. -/
structure LegislatorRow where
  id : Nat
  bioguide_id : String
  full_name : String
  first_name : String
  last_name : String
  party : String
  state : String
  district : Option Int
  chamber : String
  portrait_url : Option String
  official_website_url : Option String
  office_contact : Option String
  bio_snapshot : Option String
deriving DecidableEq

/-- A row of the `service_history` table (dates as day numbers). -/
structure ServiceRow where
  legislator_id : Nat
  chamber : String
  start_date : Nat
  end_date : Option Nat
deriving DecidableEq

/-- A row of the `committee_assignments` table. -/
structure CommitteeRow where
  id : Nat
  legislator_id : Nat
  committee_name : String
  role : String
  congress : Nat
  subcommittee_name : Option String
deriving DecidableEq

/-- A row of the `leadership_roles` table. -/
structure LeadershipRow where
  id : Nat
  legislator_id : Nat
  congress : Nat
  role : String
deriving DecidableEq

/-- A row of the `bill_sponsorships` table. -/
structure SponsorshipRow where
  legislator_id : Nat
  bill_number : String
  title : String
  sponsorship_type : String
  status : String
  date_introduced : Nat
deriving DecidableEq

/-- A row of the `campaign_finance` table (one per legislator and cycle). -/
structure FinanceRow where
  legislator_id : Nat
  cycle : Nat
  total_raised : Int
  industry_breakdown : String
deriving DecidableEq

/-- A row of the `vote_records` table. -/
structure VoteRecordRow where
  legislator_id : Nat
  vote_session_id : Nat
  vote_cast : String
deriving DecidableEq

/-- A row of the `vote_sessions` table. -/
structure VoteSessionRow where
  id : Nat
  date : Nat
  bill_id : String
deriving DecidableEq

/-- The relational store: one list of rows per table. -/
structure Database where
  legislators : List LegislatorRow
  service_history : List ServiceRow
  committee_assignments : List CommitteeRow
  leadership_roles : List LeadershipRow
  bill_sponsorships : List SponsorshipRow
  campaign_finance : List FinanceRow
  vote_records : List VoteRecordRow
  vote_sessions : List VoteSessionRow
deriving DecidableEq

/-! ## ORDER BY state, district NULLS LAST -/

/-- Comparison of nullable districts with SQL `NULLS LAST` semantics. -/
def distLE : Option Int → Option Int → Prop
  | some m, some n => m ≤ n
  | some _, none => True
  | none, some _ => False
  | none, none => True

instance : DecidableRel distLE := fun a b =>
  match a, b with
  | some m, some n => inferInstanceAs (Decidable (m ≤ n))
  | some _, none => isTrue trivial
  | none, some _ => isFalse (fun h => h)
  | none, none => isTrue trivial

/-- Row order of `ORDER BY state, district NULLS LAST`: lexicographic on the
state, then on the nullable district with nulls last. -/
def rowLE (a b : LegislatorRow) : Prop :=
  a.state < b.state ∨ (a.state = b.state ∧ distLE a.district b.district)

instance : DecidableRel rowLE := fun a b =>
  inferInstanceAs
    (Decidable (a.state < b.state ∨ (a.state = b.state ∧ distLE a.district b.district)))

/-- The listing query result: `SELECT … FROM legislators ORDER BY state,
district NULLS LAST` as a stable sort of the table. -/
def sortedLegislators (db : Database) : List LegislatorRow :=
  List.insertionSort rowLE db.legislators

/-! ## GET /api/legislators (paginated variant) -/

/-- One item of the paginated listing: the selected columns, with the
portrait URL overridden to the locally served static endpoint. -/
structure SummaryItem where
  bioguide_id : String
  full_name : String
  party : String
  state : String
  district : Option Int
  chamber : String
  portrait_url : String
  official_website_url : Option String
  office_contact : Option String
  bio_snapshot : Option String
deriving DecidableEq

/-- Projection of a legislator row onto a listing item, including the
portrait override performed by the route
(`portrait_url: /portraits/ + bioguide_id + .jpg`). -/
def summarize (l : LegislatorRow) : SummaryItem :=
  { bioguide_id := l.bioguide_id
    full_name := l.full_name
    party := l.party
    state := l.state
    district := l.district
    chamber := l.chamber
    portrait_url := "/portraits/" ++ l.bioguide_id ++ ".jpg"
    official_website_url := l.official_website_url
    office_contact := l.office_contact
    bio_snapshot := l.bio_snapshot }

/-- Successful body of the paginated listing route. -/
structure ListOkBody where
  items : List SummaryItem
  totalCount : Nat
  page : Int
  pageSize : Int
deriving DecidableEq

/-- Result of the paginated listing route: a JSON body, or an HTTP error. -/
inductive ListResult where
  | ok (body : ListOkBody)
  | error (status : Nat) (msg : String)
deriving DecidableEq

/-- Core of the paginated route once `page` and `pageSize` are computed:
`offset = (page - 1) * pageSize`; the count query plus the page query.
PostgreSQL rejects a negative `LIMIT` or `OFFSET`, which the route's
`catch` turns into a 500 response. -/
def listCore (db : Database) (page pageSize : Int) : ListResult :=
  let offset := (page - 1) * pageSize
  if pageSize < 0 ∨ offset < 0 then
    ListResult.error 500 "Failed to fetch legislators"
  else
    ListResult.ok
      { items := (((sortedLegislators db).drop offset.toNat).take pageSize.toNat).map summarize
        totalCount := db.legislators.length
        page := page
        pageSize := pageSize }

/-- The paginated `GET /` route handler:
`page = parseInt(req.query.page, 10) || 1`,
`pageSize = parseInt(req.query.pageSize, 10) || 24`, then the queries. -/
def listHandler (db : Database) (pageQ pageSizeQ : Option String) : ListResult :=
  listCore db (jsParseIntOr pageQ 1) (jsParseIntOr pageSizeQ 24)

/-- What `ORDER BY state, district NULLS LAST` guarantees about one
execution of the page query: the result is some reordering of the table
that is sorted by the key. The key is not unique, so the order of tied
rows is unspecified and may differ between the separate executions issued
for different pages or different runs. -/
def validOrdering (db : Database) (L : List LegislatorRow) : Prop :=
  L.Perm db.legislators ∧ List.Sorted rowLE L

/-- The page `i + 1` slice (`OFFSET i * s LIMIT s`) served from one
execution of the page query whose result ordering is `L`, with the route's
portrait override. -/
def pageFromOrdering (L : List LegislatorRow) (s i : Nat) : List SummaryItem :=
  ((L.drop (i * s)).take s).map summarize

/-! ## GET /api/legislators/:bioguide_id (defensive variant)

The route runs the core lookup and then six related-entity queries, each in
its own `try/catch` that turns a thrown query into its own 500 response.
Thrown queries are modelled by a fault assignment: `true` means the
corresponding `db.query` call throws. -/

/-- Fault assignment: which of the seven queries of the profile route throw. -/
structure Faults where
  core : Bool
  service : Bool
  committees : Bool
  leadership : Bool
  bills : Bool
  finance : Bool
  votes : Bool
deriving DecidableEq

/-- The all-queries-succeed fault assignment. -/
def noFaults : Faults :=
  { core := false, service := false, committees := false, leadership := false
    bills := false, finance := false, votes := false }

/-- Tags naming the seven queries of the profile route, in execution order. -/
inductive QueryTag where
  | core
  | service
  | committees
  | leadership
  | bills
  | finance
  | votes
deriving DecidableEq

/-- Entry of `service_history` in the response. -/
structure ServiceEntry where
  chamber : String
  start_date : Nat
  end_date : Option Nat
deriving DecidableEq

/-- Entry of `committees` in the response (`id AS committee_id`,
`committee_name AS name`). -/
structure CommitteeEntry where
  committee_id : Nat
  name : String
  role : String
  congress : Nat
  subcommittee_name : Option String
deriving DecidableEq

/-- Entry of `leadership_positions` in the response (`role AS title`). -/
structure LeadershipEntry where
  leadership_id : Nat
  congress : Nat
  title : String
deriving DecidableEq

/-- Entry of `sponsored_bills` in the response (`bill_number AS bill_id`,
`sponsorship_type AS type`, `date_introduced AS date`). -/
structure BillEntry where
  bill_id : String
  title : String
  type : String
  status : String
  date : Nat
deriving DecidableEq

/-- Entry of `recent_votes` in the response (`vs.bill_id AS bill`,
`vr.vote_cast AS position`). -/
structure VoteEntry where
  date : Nat
  bill : String
  position : String
  vote_session_id : Nat
deriving DecidableEq

/-- JavaScript value of the `finance_summary` field. The type keeps `null`
and `undefined` as distinct constructors so that "never null/undefined" is a
real statement about the route. -/
inductive FinanceSummary where
  | obj (cycle : Nat) (total_contributions : Int) (top_industries : String)
  | emptyObj
  | nullV
  | undefV
deriving DecidableEq

/-- JavaScript `rows[0]` on the finance result set: `undefined` when the
result set is empty, otherwise the aliased row object
(`total_raised AS total_contributions`, `industry_breakdown AS top_industries`). -/
def rowsIndexZero : List FinanceRow → FinanceSummary
  | [] => FinanceSummary.undefV
  | r :: _ => FinanceSummary.obj r.cycle r.total_raised r.industry_breakdown

/-- JavaScript `x || \x7b\x7d`: the falsy values `null` and `undefined` fall
back to the empty object; any object (always truthy) is kept. -/
def jsOrEmptyObj : FinanceSummary → FinanceSummary
  | FinanceSummary.nullV => FinanceSummary.emptyObj
  | FinanceSummary.undefV => FinanceSummary.emptyObj
  | v => v

/-- The assembled profile body returned on success. The route drops the
surrogate `id` via destructuring, exposes `bio_snapshot AS bio`, and
overrides `portrait_url`. -/
structure Profile where
  bioguide_id : String
  first_name : String
  last_name : String
  party : String
  state : String
  district : Option Int
  chamber : String
  portrait_url : String
  official_website_url : Option String
  office_contact : Option String
  bio : Option String
  service_history : List ServiceEntry
  committees : List CommitteeEntry
  leadership_positions : List LeadershipEntry
  sponsored_bills : List BillEntry
  finance_summary : FinanceSummary
  recent_votes : List VoteEntry
deriving DecidableEq

/-- HTTP response of the profile route. -/
inductive Response where
  | ok (body : Profile)
  | notFound (error : String)
  | serverError (error : String)
deriving DecidableEq

/-- HTTP status code of a profile-route response. -/
def Response.status : Response → Nat
  | Response.ok _ => 200
  | Response.notFound _ => 404
  | Response.serverError _ => 500

/-- Descending order on service starts: `ORDER BY start_date DESC`. -/
def serviceBefore (a b : ServiceRow) : Prop :=
  b.start_date ≤ a.start_date

instance : DecidableRel serviceBefore := fun _ _ => Nat.decLe _ _

/-- Descending order on introduction dates: `ORDER BY date_introduced DESC`. -/
def introBefore (a b : SponsorshipRow) : Prop :=
  b.date_introduced ≤ a.date_introduced

instance : DecidableRel introBefore := fun _ _ => Nat.decLe _ _

/-- Descending order on joined vote rows: `ORDER BY vs.date DESC`. -/
def voteBefore (a b : VoteEntry) : Prop :=
  b.date ≤ a.date

instance : DecidableRel voteBefore := fun _ _ => Nat.decLe _ _

/-- `SELECT chamber, start_date, end_date FROM service_history WHERE
legislator_id = $1 ORDER BY start_date DESC`. -/
def serviceHistoryOf (db : Database) (legId : Nat) : List ServiceEntry :=
  (List.insertionSort serviceBefore
      (db.service_history.filter (fun r => r.legislator_id == legId))).map
    (fun r => { chamber := r.chamber, start_date := r.start_date, end_date := r.end_date })

/-- `SELECT id AS committee_id, committee_name AS name, role, congress,
subcommittee_name FROM committee_assignments WHERE legislator_id = $1`. -/
def committeesOf (db : Database) (legId : Nat) : List CommitteeEntry :=
  (db.committee_assignments.filter (fun r => r.legislator_id == legId)).map
    (fun r =>
      { committee_id := r.id, name := r.committee_name, role := r.role
        congress := r.congress, subcommittee_name := r.subcommittee_name })

/-- `SELECT id AS leadership_id, congress, role AS title FROM
leadership_roles WHERE legislator_id = $1`. -/
def leadershipOf (db : Database) (legId : Nat) : List LeadershipEntry :=
  (db.leadership_roles.filter (fun r => r.legislator_id == legId)).map
    (fun r => { leadership_id := r.id, congress := r.congress, title := r.role })

/-- The filtered sponsorship rows of one legislator. -/
def sponsorRowsOf (db : Database) (legId : Nat) : List SponsorshipRow :=
  db.bill_sponsorships.filter (fun r => r.legislator_id == legId)

/-- Projection of a sponsorship row onto a response entry. -/
def toBillEntry (r : SponsorshipRow) : BillEntry :=
  { bill_id := r.bill_number, title := r.title, type := r.sponsorship_type
    status := r.status, date := r.date_introduced }

/-- `SELECT … FROM bill_sponsorships WHERE legislator_id = $1
ORDER BY date_introduced DESC LIMIT 10`. -/
def sponsoredBillsOf (db : Database) (legId : Nat) : List BillEntry :=
  ((List.insertionSort introBefore (sponsorRowsOf db legId)).take 10).map toBillEntry

/-- The filtered finance rows of one legislator. -/
def financeRowsOf (db : Database) (legId : Nat) : List FinanceRow :=
  db.campaign_finance.filter (fun r => r.legislator_id == legId)

/-- `legislator.finance_summary = finance.rows[0] || \x7b\x7d`. -/
def financeSummaryOf (db : Database) (legId : Nat) : FinanceSummary :=
  jsOrEmptyObj (rowsIndexZero (financeRowsOf db legId))

/-- The join `FROM vote_records vr JOIN vote_sessions vs ON
vr.vote_session_id = vs.id WHERE vr.legislator_id = $1`, with the selected
columns. -/
def voteJoinOf (db : Database) (legId : Nat) : List VoteEntry :=
  (db.vote_records.filter (fun r => r.legislator_id == legId)).flatMap
    (fun vr =>
      (db.vote_sessions.filter (fun vs => vs.id == vr.vote_session_id)).map
        (fun vs =>
          { date := vs.date, bill := vs.bill_id, position := vr.vote_cast
            vote_session_id := vr.vote_session_id }))

/-- `… ORDER BY vs.date DESC LIMIT 20` over the join. -/
def recentVotesOf (db : Database) (legId : Nat) : List VoteEntry :=
  (List.insertionSort voteBefore (voteJoinOf db legId)).take 20

/-- The profile body assembled when every query succeeds: scalar columns of
the core row (surrogate `id` dropped, `bio_snapshot AS bio`), the portrait
override, and the six related-entity results. -/
def buildProfile (db : Database) (bioguide_id : String) (l : LegislatorRow) : Profile :=
  { bioguide_id := l.bioguide_id
    first_name := l.first_name
    last_name := l.last_name
    party := l.party
    state := l.state
    district := l.district
    chamber := l.chamber
    portrait_url := "/portraits/" ++ bioguide_id ++ ".jpg"
    official_website_url := l.official_website_url
    office_contact := l.office_contact
    bio := l.bio_snapshot
    service_history := serviceHistoryOf db l.id
    committees := committeesOf db l.id
    leadership_positions := leadershipOf db l.id
    sponsored_bills := sponsoredBillsOf db l.id
    finance_summary := financeSummaryOf db l.id
    recent_votes := recentVotesOf db l.id }

/-- The `GET /:bioguide_id` route handler (defensive variant). Returns the
HTTP response together with the list of queries that were executed, in
order; a query that throws is still listed (it was attempted), and nothing
after an early `return` runs. -/
def getLegislatorProfile (db : Database) (fa : Faults) (bioguide_id : String) :
    Response × List QueryTag :=
  if fa.core then
    (Response.serverError "Failed to fetch core legislator info", [QueryTag.core])
  else
    match (db.legislators.filter (fun l => l.bioguide_id == bioguide_id)).head? with
    | none => (Response.notFound "Legislator not found", [QueryTag.core])
    | some l =>
      if fa.service then
        (Response.serverError "Failed to fetch service history",
          [QueryTag.core, QueryTag.service])
      else if fa.committees then
        (Response.serverError "Failed to fetch committee assignments",
          [QueryTag.core, QueryTag.service, QueryTag.committees])
      else if fa.leadership then
        (Response.serverError "Failed to fetch leadership roles",
          [QueryTag.core, QueryTag.service, QueryTag.committees, QueryTag.leadership])
      else if fa.bills then
        (Response.serverError "Failed to fetch sponsored bills",
          [QueryTag.core, QueryTag.service, QueryTag.committees, QueryTag.leadership,
            QueryTag.bills])
      else if fa.finance then
        (Response.serverError "Failed to fetch finance summary",
          [QueryTag.core, QueryTag.service, QueryTag.committees, QueryTag.leadership,
            QueryTag.bills, QueryTag.finance])
      else if fa.votes then
        (Response.serverError "Failed to fetch recent votes",
          [QueryTag.core, QueryTag.service, QueryTag.committees, QueryTag.leadership,
            QueryTag.bills, QueryTag.finance, QueryTag.votes])
      else
        (Response.ok (buildProfile db bioguide_id l),
          [QueryTag.core, QueryTag.service, QueryTag.committees, QueryTag.leadership,
            QueryTag.bills, QueryTag.finance, QueryTag.votes])

/-! ## CORS origin callback (server.js, logging variant)

`origin: (origin, cb) => ...` accepts a falsy origin (header absent; the
check `!origin` also treats an empty value as absent), any origin on the
environment allow-list, and any origin matched by the unanchored suffix
regexes `\.vercel\.app$` and `\.onrender\.com$`; everything else is
rejected with an error callback. `none` models the falsy case. -/

/-- Suffix test on strings, character by character: the semantics of the
unanchored regex `pat$` for a literal pattern (`\.vercel\.app$` matches a
string exactly when it ends with the characters `.vercel.app`). -/
def strEndsWith (s suffix : String) : Bool :=
  let sd := s.data
  let pd := suffix.data
  if pd.length ≤ sd.length then sd.drop (sd.length - pd.length) == pd else false

/-- The CORS origin callback as a Boolean decision: `true` means the
request is accepted, `false` means `cb(new Error(...), false)`. -/
def corsOriginAllowed (allowedOrigins : List String) (origin : Option String) : Bool :=
  match origin with
  | none => true
  | some o =>
    if allowedOrigins.contains o then true
    else if strEndsWith o ".vercel.app" then true
    else if strEndsWith o ".onrender.com" then true
    else false

/-! ## FEC mapping ETL: normalize_and_map

Embedding of the Python helper. A record is a dict from the external API:
every field access `rec.get(...)` may be `None`, so each field is an
`Option`. The helper calls `.lower()` on the name unguarded: a `None` name
raises `AttributeError`, modelled as an `Except.error`. -/

/-- An external candidate record (`rec.get` fields). -/
structure FecRecord where
  candidate_id : Option String
  name : Option String
  state : Option String
  district : Option String
deriving DecidableEq

/-- `rec.get("district") if rec.get("district") not in (None, "", "00")
else None`. -/
def normDistrict : Option String → Option String
  | none => none
  | some s => if s = "" ∨ s = "00" then none else some s

/-- The fuzzy key `(name.lower(), state, district)` used for the lookup. -/
abbrev FuzzyKey := String × Option String × Option String

/-- A tuple appended to `rows` for the bulk upsert (the `last_updated`
timestamp column is omitted from the model). -/
structure UpsertRow where
  fec_id : Option String
  bioguide_id : String
  name : String
  office : String
  state : Option String
  district : Option String
  cycle : Nat
deriving DecidableEq

/-- The Python helper `normalize_and_map(records, lookup, cycle, office_code)`.
Returns the upsert rows together with the number of warnings logged for
unmatched records, or the uncaught exception raised when a record has no
name (`None.lower()`). -/
def normalize_and_map (records : List FecRecord) (lookup : List (FuzzyKey × String))
    (cycle : Nat) (office_code : String) : Except String (List UpsertRow × Nat) :=
  match records with
  | [] => Except.ok ([], 0)
  | rec :: rest =>
    match rec.name with
    | none => Except.error "AttributeError: NoneType object has no attribute lower"
    | some nm =>
      match normalize_and_map rest lookup cycle office_code with
      | Except.error e => Except.error e
      | Except.ok (rows, warns) =>
        match List.lookup (nm.toLower, rec.state, normDistrict rec.district) lookup with
        | none => Except.ok (rows, warns + 1)
        | some bioguide =>
          Except.ok
            ({ fec_id := rec.candidate_id, bioguide_id := bioguide, name := nm
               office := office_code, state := rec.state
               district := normDistrict rec.district, cycle := cycle } :: rows, warns)

/-- Specification-side description of what one record contributes to the
upsert: `none` when the record is dropped (no bioguide match), `some row`
when it is matched. Used to state the amended ETL claim; defined only for
records whose name is present. -/
def mappedRowOf (lookup : List (FuzzyKey × String)) (cycle : Nat) (office_code : String)
    (rec : FecRecord) : Option UpsertRow :=
  match rec.name with
  | none => none
  | some nm =>
    match List.lookup (nm.toLower, rec.state, normDistrict rec.district) lookup with
    | none => none
    | some bioguide =>
      some
        { fec_id := rec.candidate_id, bioguide_id := bioguide, name := nm
          office := office_code, state := rec.state
          district := normDistrict rec.district, cycle := cycle }

/-! ## Example data used by the witnesses -/

/-- Example legislator: known bioguide id, with related rows of every kind. -/
def leg1 : LegislatorRow :=
  { id := 1, bioguide_id := "A000360", full_name := "Jane Doe"
    first_name := "Jane", last_name := "Doe", party := "I", state := "CA"
    district := some 12, chamber := "House"
    portrait_url := some "https://theunitedstates.io/images/congress/450x550/A000360.jpg"
    official_website_url := some "https://example.gov"
    office_contact := some "202-555-0123"
    bio_snapshot := some "Former educator and city council member." }

/-- Example legislator with a null district and no related rows. -/
def leg2 : LegislatorRow :=
  { id := 2, bioguide_id := "B000001", full_name := "Bob Roe"
    first_name := "Bob", last_name := "Roe", party := "D", state := "AZ"
    district := none, chamber := "Senate"
    portrait_url := none, official_website_url := none
    office_contact := none, bio_snapshot := none }

/-- A small concrete database used to instantiate the theorems. -/
def exampleDb : Database :=
  { legislators := [leg1, leg2]
    service_history :=
      [ { legislator_id := 1, chamber := "House", start_date := 100, end_date := none }
      , { legislator_id := 1, chamber := "House", start_date := 50, end_date := some 99 }
      , { legislator_id := 2, chamber := "Senate", start_date := 10, end_date := some 40 } ]
    committee_assignments :=
      [ { id := 7, legislator_id := 1, committee_name := "Education", role := "Member"
          congress := 118, subcommittee_name := none } ]
    leadership_roles :=
      [ { id := 3, legislator_id := 1, congress := 118, role := "Whip" } ]
    bill_sponsorships :=
      [ { legislator_id := 1, bill_number := "HR1", title := "Act One"
          sponsorship_type := "Sponsor", status := "Introduced", date_introduced := 5 }
      , { legislator_id := 1, bill_number := "HR2", title := "Act Two"
          sponsorship_type := "Sponsor", status := "Passed", date_introduced := 9 }
      , { legislator_id := 2, bill_number := "S1", title := "Act Three"
          sponsorship_type := "Cosponsor", status := "Introduced", date_introduced := 7 } ]
    campaign_finance :=
      [ { legislator_id := 1, cycle := 2024, total_raised := 500000
          industry_breakdown := "tech" } ]
    vote_records :=
      [ { legislator_id := 1, vote_session_id := 1, vote_cast := "Yea" }
      , { legislator_id := 1, vote_session_id := 2, vote_cast := "Nay" }
      , { legislator_id := 2, vote_session_id := 1, vote_cast := "Yea" } ]
    vote_sessions :=
      [ { id := 1, date := 200, bill_id := "HR1" }
      , { id := 2, date := 300, bill_id := "HR2" } ] }

/-- Fault assignment where only the campaign-finance sub-query throws. -/
def faultFinance : Faults := { noFaults with finance := true }

/-- A second senator from the same state as `leg2`, also with a null
district: the pair ties on the entire listing sort key. -/
def leg3 : LegislatorRow :=
  { id := 3, bioguide_id := "C000001", full_name := "Cam Poe"
    first_name := "Cam", last_name := "Poe", party := "R", state := "AZ"
    district := none, chamber := "Senate"
    portrait_url := none, official_website_url := none
    office_contact := none, bio_snapshot := none }

/-- A database whose listing contains two rows with an identical sort key
(two same-state senators, both with a null district). -/
def exampleDb2 : Database :=
  { legislators := [leg2, leg3]
    service_history := []
    committee_assignments := []
    leadership_roles := []
    bill_sponsorships := []
    campaign_finance := []
    vote_records := []
    vote_sessions := [] }

/-- Example legislator lookup for the ETL witness:
`(full_name.lower(), state, district) -> bioguide_id`. -/
def fecLookupEx : List (FuzzyKey × String) :=
  [(("jane doe", some "CA", some "12"), "A000360")]

/-- An external record that matches the lookup. -/
def fecRecMatched : FecRecord :=
  { candidate_id := some "H8CA00001", name := some "Jane Doe"
    state := some "CA", district := some "12" }

/-- An external record with a name that matches nothing in the lookup. -/
def fecRecUnmatched : FecRecord :=
  { candidate_id := some "H8TX00002", name := some "Bob Roe"
    state := some "TX", district := some "05" }

/-! ## Order facts for the SQL sort relations -/

theorem distLE_total (a b : Option Int) : distLE a b ∨ distLE b a := by
  cases a <;> cases b <;> simp [distLE]
  exact Int.le_total _ _

theorem distLE_trans {a b c : Option Int} (h1 : distLE a b) (h2 : distLE b c) :
    distLE a c := by
  cases a <;> cases b <;> cases c <;> simp_all [distLE]
  omega

instance : IsTotal LegislatorRow rowLE := by
  constructor
  intro a b
  rcases lt_trichotomy a.state b.state with h | h | h
  · exact Or.inl (Or.inl h)
  · rcases distLE_total a.district b.district with hd | hd
    · exact Or.inl (Or.inr ⟨h, hd⟩)
    · exact Or.inr (Or.inr ⟨h.symm, hd⟩)
  · exact Or.inr (Or.inl h)

instance : IsTrans LegislatorRow rowLE := by
  constructor
  intro a b c hab hbc
  rcases hab with h1 | ⟨h1, d1⟩
  · rcases hbc with h2 | ⟨h2, _⟩
    · exact Or.inl (lt_trans h1 h2)
    · exact Or.inl (h2 ▸ h1)
  · rcases hbc with h2 | ⟨h2, d2⟩
    · exact Or.inl (h1 ▸ h2)
    · exact Or.inr ⟨h1.trans h2, distLE_trans d1 d2⟩

instance : IsTotal ServiceRow serviceBefore :=
  ⟨fun a b => Nat.le_total b.start_date a.start_date⟩

instance : IsTrans ServiceRow serviceBefore :=
  ⟨fun _ _ _ hab hbc => le_trans hbc hab⟩

instance : IsTotal SponsorshipRow introBefore :=
  ⟨fun a b => Nat.le_total b.date_introduced a.date_introduced⟩

instance : IsTrans SponsorshipRow introBefore :=
  ⟨fun _ _ _ hab hbc => le_trans hbc hab⟩

instance : IsTotal VoteEntry voteBefore :=
  ⟨fun a b => Nat.le_total b.date a.date⟩

instance : IsTrans VoteEntry voteBefore :=
  ⟨fun _ _ _ hab hbc => le_trans hbc hab⟩

/-! ## Claim C1: pagination input handling -/

/-- Claim C1 (counterexample): the claim states that invalid pagination
values, including `page=-5`, are silently replaced by the default page 1 and
that malformed pagination input never produces an error response. On the
code, `parseInt("-5", 10) || 1` keeps `-5` (it is truthy), the offset
`(-5 - 1) * 24` is negative, and the request yields the 500 error response. -/
theorem pagination_negative_page_cex :
    jsParseIntOr (some "-5") 1 = -5 ∧
    listHandler exampleDb (some "-5") none =
      ListResult.error 500 "Failed to fetch legislators" := by
  exact ⟨by decide, by decide⟩

/-- Claim C1 (amended): non-numeric pagination values (`parseInt` gives
`NaN`) and the falsy value `0` silently fall back to the defaults page 1 and
page size 24, as does an absent parameter; but a negative page value is kept
unchanged (it is not clamped to a positive integer), produces a negative
offset, and the request returns the 500 error response. -/
theorem pagination_defaults_amended (db : Database) (s t u : String) (n : Int)
    (hs : parseIntTen s = none ∨ parseIntTen s = some 0)
    (ht : parseIntTen t = none ∨ parseIntTen t = some 0)
    (hu : parseIntTen u = some n) (hn : n < 0) :
    listHandler db (some s) (some t) = listCore db 1 24 ∧
    listHandler db none none = listCore db 1 24 ∧
    listHandler db (some u) (some t) =
      ListResult.error 500 "Failed to fetch legislators" := by
  have hps : jsParseIntOr (some s) 1 = 1 := by
    rcases hs with h | h <;> simp [jsParseIntOr, h]
  have hpt : jsParseIntOr (some t) 24 = 24 := by
    rcases ht with h | h <;> simp [jsParseIntOr, h]
  have hn0 : n ≠ 0 := by omega
  have hpu : jsParseIntOr (some u) 1 = n := by simp [jsParseIntOr, hu, hn0]
  refine ⟨?_, rfl, ?_⟩
  · unfold listHandler
    rw [hps, hpt]
  · unfold listHandler
    rw [hpu, hpt]
    have hoff : (24 : Int) < 0 ∨ (n - 1) * 24 < 0 := by
      right
      omega
    simp [listCore, hoff]
    omega

/-- Claim C1 (amended, witness): instantiation at `page=abc` (non-numeric),
`pageSize=xyz` (non-numeric) and `page=-5` over the example database. -/
theorem pagination_defaults_amended_witness :
    (parseIntTen "abc" = none ∨ parseIntTen "abc" = some 0) ∧
    (parseIntTen "xyz" = none ∨ parseIntTen "xyz" = some 0) ∧
    parseIntTen "-5" = some (-5) ∧ (-5 : Int) < 0 ∧
    (listHandler exampleDb (some "abc") (some "xyz") = listCore exampleDb 1 24 ∧
      listHandler exampleDb none none = listCore exampleDb 1 24 ∧
      listHandler exampleDb (some "-5") (some "xyz") =
        ListResult.error 500 "Failed to fetch legislators") :=
  ⟨Or.inl (by decide), Or.inl (by decide), by decide, by decide,
    pagination_defaults_amended exampleDb "abc" "xyz" "-5" (-5)
      (Or.inl (by decide)) (Or.inl (by decide)) (by decide) (by decide)⟩

/-! ## Claim C8: pagination stability across runs -/

/-- Claim C8 (code evaluated at the failing input): the listing's sort key
`(state, district NULLS LAST)` is not unique — two senators of one state
both carry a null district — and the route issues a separate `ORDER BY …
LIMIT/OFFSET` query for every page, so each execution may return any
key-sorted reordering of the table; the tie order is not guaranteed to be
consistent between executions. Over a table with such a tie pair and page
size 1, both `[leg2, leg3]` and `[leg3, leg2]` are contract-compliant
orderings, and when one run's execution returns the first and another
run's execution returns the second, page 1 and page 2 both serve `leg3`
and neither serves `leg2`: duplicate and missing rows across runs, which
the claim (with the spec's determinism requirement) says can never
happen. -/
theorem pagination_tie_order_bug :
    validOrdering exampleDb2 [leg2, leg3] ∧
    validOrdering exampleDb2 [leg3, leg2] ∧
    pageFromOrdering [leg3, leg2] 1 0 = [summarize leg3] ∧
    pageFromOrdering [leg2, leg3] 1 1 = [summarize leg3] ∧
    summarize leg2 ∉
      pageFromOrdering [leg3, leg2] 1 0 ++ pageFromOrdering [leg2, leg3] 1 1 := by
  have h23 : rowLE leg2 leg3 := Or.inr ⟨rfl, trivial⟩
  have h32 : rowLE leg3 leg2 := Or.inr ⟨rfl, trivial⟩
  refine ⟨⟨List.Perm.refl _, ?_⟩, ⟨List.Perm.swap leg2 leg3 [], ?_⟩, rfl, rfl, by decide⟩
  · exact List.pairwise_cons.mpr
      ⟨fun b hb => by rw [List.mem_singleton.mp hb]; exact h23,
        List.pairwise_singleton _ _⟩
  · exact List.pairwise_cons.mpr
      ⟨fun b hb => by rw [List.mem_singleton.mp hb]; exact h32,
        List.pairwise_singleton _ _⟩

/-! ## Profile route: inversion helper -/

/-- A successful profile response comes from the first core row matching
the identifier, and its body is exactly the assembled profile. -/
theorem ok_inversion (db : Database) (fa : Faults) (bid : String) (p : Profile)
    (h : (getLegislatorProfile db fa bid).fst = Response.ok p) :
    ∃ l, (db.legislators.filter (fun r => r.bioguide_id == bid)).head? = some l ∧
      p = buildProfile db bid l := by
  unfold getLegislatorProfile at h
  split at h
  · simp at h
  · split at h
    · simp at h
    · rename_i l hl
      split at h
      · simp at h
      · split at h
        · simp at h
        · split at h
          · simp at h
          · split at h
            · simp at h
            · split at h
              · simp at h
              · split at h
                · simp at h
                · simp only [Response.ok.injEq] at h
                  exact ⟨l, hl, h.symm⟩

/-! ## Claim C2: all-or-nothing aggregation -/

/-- Claim C2: when the core legislator row is found and any one of the six
related-entity sub-queries throws, the whole request fails with a single
HTTP 500 response and no profile body is returned. -/
theorem profile_all_or_nothing (db : Database) (fa : Faults) (bid : String)
    (hcore : fa.core = false)
    (hfound : ((db.legislators.filter (fun l => l.bioguide_id == bid)).head?).isSome)
    (hfail : (fa.service || fa.committees || fa.leadership || fa.bills ||
      fa.finance || fa.votes) = true) :
    (getLegislatorProfile db fa bid).fst.status = 500 ∧
    ∀ p : Profile, (getLegislatorProfile db fa bid).fst ≠ Response.ok p := by
  rcases Option.isSome_iff_exists.mp hfound with ⟨l, hl⟩
  obtain ⟨c, s1, s2, s3, s4, s5, s6⟩ := fa
  simp only at hcore
  subst hcore
  cases s1 <;> cases s2 <;> cases s3 <;> cases s4 <;> cases s5 <;> cases s6 <;>
    simp_all [getLegislatorProfile, Response.status]

/-- Claim C2 (witness): over the example database, with the known
identifier and a fault assignment in which only the finance sub-query
throws, the response is a 500 and is not a profile body. -/
theorem profile_all_or_nothing_witness :
    faultFinance.core = false ∧
    ((exampleDb.legislators.filter (fun l => l.bioguide_id == "A000360")).head?).isSome ∧
    (faultFinance.service || faultFinance.committees || faultFinance.leadership ||
      faultFinance.bills || faultFinance.finance || faultFinance.votes) = true ∧
    ((getLegislatorProfile exampleDb faultFinance "A000360").fst.status = 500 ∧
      ∀ p : Profile,
        (getLegislatorProfile exampleDb faultFinance "A000360").fst ≠ Response.ok p) :=
  ⟨rfl, by decide, rfl,
    profile_all_or_nothing exampleDb faultFinance "A000360" rfl (by decide) rfl⟩

/-! ## Claim C3: not-found short circuit -/

/-- Claim C3: when no legislator row matches the identifier, the route
answers exactly the 404 not-found response, and the only query that was
attempted is the core lookup: none of the six related-entity lookups runs. -/
theorem profile_not_found_short_circuit (db : Database) (fa : Faults) (bid : String)
    (hcore : fa.core = false)
    (hmiss : db.legislators.filter (fun l => l.bioguide_id == bid) = []) :
    getLegislatorProfile db fa bid =
      (Response.notFound "Legislator not found", [QueryTag.core]) ∧
    (getLegislatorProfile db fa bid).fst.status = 404 := by
  have hh : (db.legislators.filter (fun l => l.bioguide_id == bid)).head? = none := by
    rw [hmiss]
    rfl
  constructor
  · simp [getLegislatorProfile, hcore, hh]
  · simp [getLegislatorProfile, hcore, hh, Response.status]

/-- Claim C3 (witness): an identifier absent from the example database
yields the 404 response and only the core query is attempted. -/
theorem profile_not_found_short_circuit_witness :
    noFaults.core = false ∧
    exampleDb.legislators.filter (fun l => l.bioguide_id == "Z999999") = [] ∧
    (getLegislatorProfile exampleDb noFaults "Z999999" =
        (Response.notFound "Legislator not found", [QueryTag.core]) ∧
      (getLegislatorProfile exampleDb noFaults "Z999999").fst.status = 404) :=
  ⟨rfl, by decide,
    profile_not_found_short_circuit exampleDb noFaults "Z999999" rfl (by decide)⟩

/-- The example profile request succeeds and returns the assembled profile
of the first matching row. Used to discharge the hypothesis of the
profile-shape witnesses. -/
theorem exampleProfile_ok :
    (getLegislatorProfile exampleDb noFaults "A000360").fst =
      Response.ok (buildProfile exampleDb "A000360" leg1) := by
  decide

/-! ## Claim C4: finance_summary is always an object -/

/-- Claim C4: on every successful profile response, `finance_summary` is
neither `null` nor `undefined`; it is the empty object when no finance row
exists for the legislator, and the first finance row's aliased columns when
one exists. -/
theorem profile_finance_summary_object (db : Database) (fa : Faults) (bid : String)
    (p : Profile) (h : (getLegislatorProfile db fa bid).fst = Response.ok p) :
    p.finance_summary ≠ FinanceSummary.nullV ∧
    p.finance_summary ≠ FinanceSummary.undefV ∧
    ∃ l, (db.legislators.filter (fun r => r.bioguide_id == bid)).head? = some l ∧
      (financeRowsOf db l.id = [] → p.finance_summary = FinanceSummary.emptyObj) ∧
      (∀ r rs, financeRowsOf db l.id = r :: rs →
        p.finance_summary =
          FinanceSummary.obj r.cycle r.total_raised r.industry_breakdown) := by
  obtain ⟨l, hl, hp⟩ := ok_inversion db fa bid p h
  subst hp
  cases hrow : financeRowsOf db l.id with
  | nil =>
    refine ⟨?_, ?_, l, hl, fun _ => ?_, fun r rs hc => ?_⟩
    · show jsOrEmptyObj (rowsIndexZero (financeRowsOf db l.id)) ≠ _
      rw [hrow]
      simp [rowsIndexZero, jsOrEmptyObj]
    · show jsOrEmptyObj (rowsIndexZero (financeRowsOf db l.id)) ≠ _
      rw [hrow]
      simp [rowsIndexZero, jsOrEmptyObj]
    · show jsOrEmptyObj (rowsIndexZero (financeRowsOf db l.id)) = _
      rw [hrow]
      rfl
    · rw [hrow] at hc
      exact absurd hc (by simp)
  | cons r0 rs0 =>
    refine ⟨?_, ?_, l, hl, fun hnil => ?_, fun r rs hc => ?_⟩
    · show jsOrEmptyObj (rowsIndexZero (financeRowsOf db l.id)) ≠ _
      rw [hrow]
      simp [rowsIndexZero, jsOrEmptyObj]
    · show jsOrEmptyObj (rowsIndexZero (financeRowsOf db l.id)) ≠ _
      rw [hrow]
      simp [rowsIndexZero, jsOrEmptyObj]
    · rw [hrow] at hnil
      exact absurd hnil (by simp)
    · rw [hrow] at hc
      injection hc with h1 h2
      subst h1
      show jsOrEmptyObj (rowsIndexZero (financeRowsOf db l.id)) = _
      rw [hrow]
      rfl

/-- Claim C4 (witness): the example profile request, where one finance row
exists for the legislator. -/
theorem profile_finance_summary_object_witness :
    (getLegislatorProfile exampleDb noFaults "A000360").fst =
      Response.ok (buildProfile exampleDb "A000360" leg1) ∧
    ((buildProfile exampleDb "A000360" leg1).finance_summary ≠ FinanceSummary.nullV ∧
      (buildProfile exampleDb "A000360" leg1).finance_summary ≠ FinanceSummary.undefV ∧
      ∃ l, (exampleDb.legislators.filter (fun r => r.bioguide_id == "A000360")).head? =
          some l ∧
        (financeRowsOf exampleDb l.id = [] →
          (buildProfile exampleDb "A000360" leg1).finance_summary =
            FinanceSummary.emptyObj) ∧
        (∀ r rs, financeRowsOf exampleDb l.id = r :: rs →
          (buildProfile exampleDb "A000360" leg1).finance_summary =
            FinanceSummary.obj r.cycle r.total_raised r.industry_breakdown)) :=
  ⟨exampleProfile_ok,
    profile_finance_summary_object exampleDb noFaults "A000360" _ exampleProfile_ok⟩

/-! ## Claim C5: sponsored_bills bounded and sorted -/

/-- Claim C5: on every successful profile response, `sponsored_bills` has at
most 10 entries, is sorted by introduction date descending, and contains
the most recent sponsorships: any sponsorship row of the legislator whose
entry was left out has an introduction date no later than every entry kept. -/
theorem profile_sponsored_bills_bounded_sorted (db : Database) (fa : Faults)
    (bid : String) (p : Profile)
    (h : (getLegislatorProfile db fa bid).fst = Response.ok p) :
    p.sponsored_bills.length ≤ 10 ∧
    List.Sorted (fun a b => b.date ≤ a.date) p.sponsored_bills ∧
    ∃ l, (db.legislators.filter (fun r => r.bioguide_id == bid)).head? = some l ∧
      ∀ r ∈ sponsorRowsOf db l.id, toBillEntry r ∉ p.sponsored_bills →
        ∀ e ∈ p.sponsored_bills, r.date_introduced ≤ e.date := by
  obtain ⟨l, hl, hp⟩ := ok_inversion db fa bid p h
  subst hp
  have hsorted : List.Sorted introBefore
      (List.insertionSort introBefore (sponsorRowsOf db l.id)) :=
    List.sorted_insertionSort introBefore _
  have htake : List.Pairwise introBefore
      ((List.insertionSort introBefore (sponsorRowsOf db l.id)).take 10) :=
    List.Pairwise.sublist (List.take_sublist _ _) hsorted
  refine ⟨?_, ?_, l, hl, ?_⟩
  · show (((List.insertionSort introBefore (sponsorRowsOf db l.id)).take 10).map
        toBillEntry).length ≤ 10
    rw [List.length_map]
    exact List.length_take_le _ _
  · show List.Sorted _
      (((List.insertionSort introBefore (sponsorRowsOf db l.id)).take 10).map toBillEntry)
    exact List.pairwise_map.mpr (htake.imp (fun hab => hab))
  · intro r hr hnot e he
    rcases List.mem_map.mp he with ⟨x, hx, rfl⟩
    have hrs : r ∈ List.insertionSort introBefore (sponsorRowsOf db l.id) := by
      rw [List.mem_insertionSort]
      exact hr
    have hsplit := List.take_append_drop 10
      (List.insertionSort introBefore (sponsorRowsOf db l.id))
    have hrs2 : r ∈ (List.insertionSort introBefore (sponsorRowsOf db l.id)).take 10 ++
        (List.insertionSort introBefore (sponsorRowsOf db l.id)).drop 10 := by
      rw [hsplit]
      exact hrs
    rcases List.mem_append.mp hrs2 with h1 | h2
    · exact absurd (List.mem_map_of_mem toBillEntry h1) hnot
    · have hps : List.Pairwise introBefore
          ((List.insertionSort introBefore (sponsorRowsOf db l.id)).take 10 ++
            (List.insertionSort introBefore (sponsorRowsOf db l.id)).drop 10) := by
        rw [hsplit]
        exact hsorted
      obtain ⟨-, -, hcross⟩ := List.pairwise_append.mp hps
      exact hcross x hx r h2

/-- Claim C5 (witness): the example profile request; the legislator has two
sponsorship rows and both entries appear, most recent first. -/
theorem profile_sponsored_bills_bounded_sorted_witness :
    (getLegislatorProfile exampleDb noFaults "A000360").fst =
      Response.ok (buildProfile exampleDb "A000360" leg1) ∧
    ((buildProfile exampleDb "A000360" leg1).sponsored_bills.length ≤ 10 ∧
      List.Sorted (fun a b => b.date ≤ a.date)
        (buildProfile exampleDb "A000360" leg1).sponsored_bills ∧
      ∃ l, (exampleDb.legislators.filter (fun r => r.bioguide_id == "A000360")).head? =
          some l ∧
        ∀ r ∈ sponsorRowsOf exampleDb l.id,
          toBillEntry r ∉ (buildProfile exampleDb "A000360" leg1).sponsored_bills →
            ∀ e ∈ (buildProfile exampleDb "A000360" leg1).sponsored_bills,
              r.date_introduced ≤ e.date) :=
  ⟨exampleProfile_ok,
    profile_sponsored_bills_bounded_sorted exampleDb noFaults "A000360" _
      exampleProfile_ok⟩

/-! ## Claim C6: recent_votes bounded, sorted and well-formed -/

/-- Claim C6: on every successful profile response, `recent_votes` has at
most 20 entries, is sorted by session date descending, and every entry
carries the date and bill reference of a session the legislator voted in
together with the cast position of the legislator's vote record. -/
theorem profile_recent_votes_bounded_sorted (db : Database) (fa : Faults)
    (bid : String) (p : Profile)
    (h : (getLegislatorProfile db fa bid).fst = Response.ok p) :
    p.recent_votes.length ≤ 20 ∧
    List.Sorted (fun a b => b.date ≤ a.date) p.recent_votes ∧
    ∃ l, (db.legislators.filter (fun r => r.bioguide_id == bid)).head? = some l ∧
      ∀ e ∈ p.recent_votes, ∃ vr, vr ∈ db.vote_records ∧ vr.legislator_id = l.id ∧
        ∃ vs, vs ∈ db.vote_sessions ∧ vs.id = vr.vote_session_id ∧
          e.date = vs.date ∧ e.bill = vs.bill_id ∧ e.position = vr.vote_cast := by
  obtain ⟨l, hl, hp⟩ := ok_inversion db fa bid p h
  subst hp
  refine ⟨?_, ?_, l, hl, ?_⟩
  · show ((List.insertionSort voteBefore (voteJoinOf db l.id)).take 20).length ≤ 20
    exact List.length_take_le _ _
  · show List.Sorted _ ((List.insertionSort voteBefore (voteJoinOf db l.id)).take 20)
    exact List.Pairwise.sublist (List.take_sublist _ _)
      (List.sorted_insertionSort voteBefore _)
  · intro e he
    have he1 : e ∈ List.insertionSort voteBefore (voteJoinOf db l.id) :=
      List.mem_of_mem_take he
    have he2 : e ∈ voteJoinOf db l.id := by
      rw [List.mem_insertionSort] at he1
      exact he1
    unfold voteJoinOf at he2
    rcases List.mem_flatMap.mp he2 with ⟨vr, hvr, he3⟩
    rcases List.mem_map.mp he3 with ⟨vs, hvs, rfl⟩
    rcases List.mem_filter.mp hvr with ⟨hvrm, hvrp⟩
    rcases List.mem_filter.mp hvs with ⟨hvsm, hvsp⟩
    exact ⟨vr, hvrm, eq_of_beq hvrp, vs, hvsm, eq_of_beq hvsp, rfl, rfl, rfl⟩

/-- Claim C6 (witness): the example profile request; the legislator has two
vote records joined to two sessions. -/
theorem profile_recent_votes_bounded_sorted_witness :
    (getLegislatorProfile exampleDb noFaults "A000360").fst =
      Response.ok (buildProfile exampleDb "A000360" leg1) ∧
    ((buildProfile exampleDb "A000360" leg1).recent_votes.length ≤ 20 ∧
      List.Sorted (fun a b => b.date ≤ a.date)
        (buildProfile exampleDb "A000360" leg1).recent_votes ∧
      ∃ l, (exampleDb.legislators.filter (fun r => r.bioguide_id == "A000360")).head? =
          some l ∧
        ∀ e ∈ (buildProfile exampleDb "A000360" leg1).recent_votes,
          ∃ vr, vr ∈ exampleDb.vote_records ∧ vr.legislator_id = l.id ∧
            ∃ vs, vs ∈ exampleDb.vote_sessions ∧ vs.id = vr.vote_session_id ∧
              e.date = vs.date ∧ e.bill = vs.bill_id ∧ e.position = vr.vote_cast) :=
  ⟨exampleProfile_ok,
    profile_recent_votes_bounded_sorted exampleDb noFaults "A000360" _
      exampleProfile_ok⟩

/-! ## Claim C7: synthetic bio field and portrait rewrite -/

/-- Claim C7: every successful profile response exposes the stored
biography snapshot of the matched row under the field `bio`, and its
portrait field is the locally served path derived from the identifier, not
the stored portrait URL. -/
theorem profile_bio_and_portrait_rewrite (db : Database) (fa : Faults)
    (bid : String) (p : Profile)
    (h : (getLegislatorProfile db fa bid).fst = Response.ok p) :
    ∃ l, (db.legislators.filter (fun r => r.bioguide_id == bid)).head? = some l ∧
      p.bio = l.bio_snapshot ∧
      p.portrait_url = "/portraits/" ++ bid ++ ".jpg" := by
  obtain ⟨l, hl, hp⟩ := ok_inversion db fa bid p h
  subst hp
  exact ⟨l, hl, rfl, rfl⟩

/-- Claim C7 (witness): the example profile request; the stored portrait
URL of the row differs from the rewritten one. -/
theorem profile_bio_and_portrait_rewrite_witness :
    (getLegislatorProfile exampleDb noFaults "A000360").fst =
      Response.ok (buildProfile exampleDb "A000360" leg1) ∧
    (∃ l, (exampleDb.legislators.filter (fun r => r.bioguide_id == "A000360")).head? =
        some l ∧
      (buildProfile exampleDb "A000360" leg1).bio = l.bio_snapshot ∧
      (buildProfile exampleDb "A000360" leg1).portrait_url =
        "/portraits/" ++ "A000360" ++ ".jpg") :=
  ⟨exampleProfile_ok,
    profile_bio_and_portrait_rewrite exampleDb noFaults "A000360" _ exampleProfile_ok⟩

/-! ## Claim C9: ETL unmatched records -/

/-- Claim C9 (counterexample): the claim states that a record that cannot be
matched to a legislator is dropped with a warning and that its presence
never makes the job fail. But `normalize_and_map` calls `.lower()` on
`rec.get("name")` unguarded: a record whose `name` field is missing cannot
be matched by the fuzzy key, and its presence raises an uncaught
`AttributeError` that fails the whole batch. -/
theorem etl_nameless_record_fails_cex :
    normalize_and_map
        [{ candidate_id := some "H8CA01234", name := none, state := some "CA"
           district := some "12" }] [] 2020 "H" =
      Except.error "AttributeError: NoneType object has no attribute lower" := rfl

/-- Claim C9 (amended): for every batch in which each record carries a name,
the job never fails: a record with no bioguide match by the fuzzy key is
dropped with a warning and excluded from the upsert rows, and every matched
record of the batch contributes its row, in batch order. A record whose
name is missing, however, raises an exception that fails the whole batch. -/
theorem etl_unmatched_dropped_amended (records : List FecRecord)
    (lookup : List (FuzzyKey × String)) (cycle : Nat) (office_code : String)
    (h : ∀ r ∈ records, r.name.isSome) :
    normalize_and_map records lookup cycle office_code =
      Except.ok
        (records.filterMap (mappedRowOf lookup cycle office_code),
          (records.filter
            (fun r => (mappedRowOf lookup cycle office_code r).isNone)).length) := by
  induction records with
  | nil => rfl
  | cons rec rest ih =>
    have hname : rec.name.isSome := h rec (List.mem_cons_self _ _)
    rcases Option.isSome_iff_exists.mp hname with ⟨nm, hnm⟩
    have ihh := ih (fun r hr => h r (List.mem_cons_of_mem _ hr))
    simp only [normalize_and_map, hnm, ihh]
    cases hkey : List.lookup (nm.toLower, rec.state, normDistrict rec.district) lookup with
    | none =>
      simp [List.filter_cons, mappedRowOf, hnm, hkey]
    | some bg =>
      simp [List.filter_cons, mappedRowOf, hnm, hkey]

/-- Claim C9 (amended, witness): a two-record batch, one matched and one
unmatched, both named: the job succeeds with the matched row and one
warning. -/
theorem etl_unmatched_dropped_amended_witness :
    (∀ r ∈ [fecRecMatched, fecRecUnmatched], r.name.isSome) ∧
    normalize_and_map [fecRecMatched, fecRecUnmatched] fecLookupEx 2020 "H" =
      Except.ok
        ([fecRecMatched, fecRecUnmatched].filterMap (mappedRowOf fecLookupEx 2020 "H"),
          ([fecRecMatched, fecRecUnmatched].filter
            (fun r => (mappedRowOf fecLookupEx 2020 "H" r).isNone)).length) :=
  ⟨by decide,
    etl_unmatched_dropped_amended [fecRecMatched, fecRecUnmatched] fecLookupEx 2020 "H"
      (by decide)⟩

/-! ## Claim C10: CORS origin decision -/

/-- Claim C10: the CORS callback accepts a request with no Origin header,
accepts any origin whose string ends with `.vercel.app` or `.onrender.com`
whether or not it is on the environment allow-list, and rejects every other
origin that is not on the allow-list. -/
theorem cors_suffix_and_absent_origin (allowedOrigins : List String) (o : String) :
    corsOriginAllowed allowedOrigins none = true ∧
    (strEndsWith o ".vercel.app" = true →
      corsOriginAllowed allowedOrigins (some o) = true) ∧
    (strEndsWith o ".onrender.com" = true →
      corsOriginAllowed allowedOrigins (some o) = true) ∧
    (o ∉ allowedOrigins → strEndsWith o ".vercel.app" = false →
      strEndsWith o ".onrender.com" = false →
      corsOriginAllowed allowedOrigins (some o) = false) := by
  refine ⟨rfl, fun h => ?_, fun h => ?_, fun h1 h2 h3 => ?_⟩
  · simp [corsOriginAllowed, h]
  · simp [corsOriginAllowed, h]
  · simp [corsOriginAllowed, h1, h2, h3]

/-- Claim C10 (witness): an origin ending in `.vercel.app` that is not on
the allow-list (not even an https one) is accepted; an unrelated origin
off the allow-list is rejected. -/
theorem cors_suffix_and_absent_origin_witness :
    strEndsWith "http://evil.vercel.app" ".vercel.app" = true ∧
    corsOriginAllowed ["https://example.com"] (some "http://evil.vercel.app") = true ∧
    ("https://attacker.test" ∉ (["https://example.com"] : List String) ∧
      corsOriginAllowed ["https://example.com"] (some "https://attacker.test") = false) :=
  ⟨by decide,
    (cors_suffix_and_absent_origin ["https://example.com"] "http://evil.vercel.app").2.1
      (by decide),
    by decide,
    (cors_suffix_and_absent_origin ["https://example.com"] "https://attacker.test").2.2.2
      (by decide) (by decide) (by decide)⟩

end Congress
